import Mathlib

/-!
Shallow embedding of the landsat-project backend (NestJS + AWS SDK + geotiff.js):
`src/s3/s3.service.ts` (S3Service) and the S3Controller in `src/main.ts`.

The storage provider (AWS S3) and the raster decoder (geotiff.js) are external
collaborators; their behavior is a parameter (`World`). Each embedded operation
returns its result together with the list of external calls it issued (`Event`),
so that properties about which requests reach the provider, and whether the
decoder is invoked, can be stated and proved.
-/

namespace Landsat

/-- A JavaScript error value, observed through its `message` field: every error
thrown by the service or the SDK is an Error object carrying a message string. -/
structure JsError where
  message : String
deriving DecidableEq

/-- Shallow model of a Node.js Readable stream: the data chunks it will emit and
an optional error event. This matches how `streamToBuffer` in s3.service.ts
consumes a stream: `data` events push chunks, `end` resolves with their
concatenation, `error` rejects with the stream's error. Bytes are `Nat`. -/
structure Readable where
  chunks : List (List Nat)
  err : Option JsError
deriving DecidableEq

/-- Input shape of ListObjectsV2Command as constructed in s3.service.ts
`listObjects`. The field `Pfx` renders the SDK field spelled P-r-e-f-i-x
(renamed here because that identifier is reserved in this development);
in the SDK it is optional, hence `Option String`. -/
structure ListObjectsV2Command where
  Bucket : String
  Pfx : Option String
  ContinuationToken : Option String
  RequestPayer : Option String
deriving DecidableEq

/-- Input shape of GetObjectCommand as constructed in s3.service.ts
`getObject` and `getGeoTIFFStream`. -/
structure GetObjectCommand where
  Bucket : String
  Key : String
  RequestPayer : Option String
deriving DecidableEq

/-- An entry of the provider's listing response (`Contents`); the repository
never inspects entries, it passes them through to the HTTP body. -/
structure S3Object where
  Key : Option String
  Size : Option Nat
deriving DecidableEq

/-- The provider's ListObjectsV2 response as consumed by the controller:
`Contents`, `IsTruncated` and `NextContinuationToken` are the only fields read. -/
structure ListResponse where
  Contents : List S3Object
  IsTruncated : Bool
  NextContinuationToken : Option String
deriving DecidableEq

/-- One image of a GeoTIFF container as exposed by geotiff.js: `readRasters()`
yields the raster band data, `getWidth()` and `getHeight()` the dimensions. -/
structure GeoTIFFImage where
  raster : List Nat
  width : Nat
  height : Nat
deriving DecidableEq

/-- Result shape of `S3Service.getGeoTIFF`: `{ rasterData, width, height }`. -/
structure GeoTIFFData where
  rasterData : List Nat
  width : Nat
  height : Nat
deriving DecidableEq

/-- Behavior of the external collaborators: the outcome of each storage command
and of `GeoTIFF.fromArrayBuffer` (a container is its list of images, in order;
`getImage()` with no index selects the first). The repository treats both as
black boxes, so every property is quantified over this behavior. -/
structure World where
  listBucketsResult : Except JsError Unit
  listResult : ListObjectsV2Command → Except JsError ListResponse
  getResult : GetObjectCommand → Except JsError Readable
  fromArrayBuffer : List Nat → Except JsError (List GeoTIFFImage)

/-- External calls an operation issues, in order: the three storage commands the
service builds, and invocations of the raster decoder on a byte buffer. -/
inductive Event where
  | sendListBuckets : Event
  | sendList : ListObjectsV2Command → Event
  | sendGet : GetObjectCommand → Event
  | decodeFromArrayBuffer : List Nat → Event
deriving DecidableEq

/-- The fixed target bucket of s3.service.ts: `bucketName = 'usgs-landsat'`. -/
def bucketName : String := "usgs-landsat"

namespace S3Service

/-- Embeds `verifyAWSAuthentication` (s3.service.ts:33-43): sends a
ListBucketsCommand; returns true on success; the catch logs the failure and
returns false, so the error is swallowed into the boolean. -/
def verifyAWSAuthentication (w : World) : Bool × List Event :=
  match w.listBucketsResult with
  | Except.ok _ => (true, [Event.sendListBuckets])
  | Except.error _ => (false, [Event.sendListBuckets])

/-- Embeds `listObjects` (s3.service.ts:50-68): builds a ListObjectsV2Command
against the fixed bucket with the given values and `RequestPayer: 'requester'`,
sends it, and returns the response; the catch logs and rethrows the same error.
In the source the first parameter defaults to `'collection02/'`, but the
controller always supplies a value, so the default is modelled at the route. -/
def listObjects (w : World) (pfx : String) (continuationToken : Option String) :
    Except JsError ListResponse × List Event :=
  let cmd : ListObjectsV2Command :=
    { Bucket := bucketName, Pfx := some pfx, ContinuationToken := continuationToken,
      RequestPayer := some "requester" }
  (w.listResult cmd, [Event.sendList cmd])

/-- Embeds `streamToBuffer` (s3.service.ts:96-103): resolves with the
concatenation of the emitted chunks, or rejects with the stream's error. -/
def streamToBuffer (stream : Readable) : Except JsError (List Nat) :=
  match stream.err with
  | some e => Except.error e
  | none => Except.ok stream.chunks.flatten

/-- Embeds `getObject` (s3.service.ts:74-90): builds a GetObjectCommand with
`RequestPayer: 'requester'`, sends it, and buffers the body stream via
`streamToBuffer`; the catch logs and rethrows the same error. -/
def getObject (w : World) (key : String) : Except JsError (List Nat) × List Event :=
  let cmd : GetObjectCommand :=
    { Bucket := bucketName, Key := key, RequestPayer := some "requester" }
  match w.getResult cmd with
  | Except.error e => (Except.error e, [Event.sendGet cmd])
  | Except.ok stream => (streamToBuffer stream, [Event.sendGet cmd])

/-- Embeds `getGeoTIFF` (s3.service.ts:109-145): full buffered fetch via
`getObject`, then `GeoTIFF.fromArrayBuffer` on the buffer (the ArrayBuffer
slice is byte-identical to the buffer), `getImage()` (the container's first
image), `readRasters()`, `getWidth()`, `getHeight()`. Any error inside the try
block is replaced by `new Error('Could not retrieve GeoTIFF data')`. -/
def getGeoTIFF (w : World) (key : String) : Except JsError GeoTIFFData × List Event :=
  match getObject w key with
  | (Except.error _, evs) =>
      (Except.error { message := "Could not retrieve GeoTIFF data" }, evs)
  | (Except.ok buffer, evs) =>
      let evs2 := evs ++ [Event.decodeFromArrayBuffer buffer]
      match w.fromArrayBuffer buffer with
      | Except.error _ =>
          (Except.error { message := "Could not retrieve GeoTIFF data" }, evs2)
      | Except.ok images =>
          match images.head? with
          | none => (Except.error { message := "Could not retrieve GeoTIFF data" }, evs2)
          | some image =>
              (Except.ok { rasterData := image.raster, width := image.width,
                           height := image.height }, evs2)

/-- Embeds `getGeoTIFFStream` (s3.service.ts:151-168): builds a GetObjectCommand
with `RequestPayer: 'requester'`, sends it, and returns the body stream
directly; the catch logs the provider error and throws
`new Error('Could not retrieve GeoTIFF stream')` in its place. -/
def getGeoTIFFStream (w : World) (key : String) : Except JsError Readable × List Event :=
  let cmd : GetObjectCommand :=
    { Bucket := bucketName, Key := key, RequestPayer := some "requester" }
  match w.getResult cmd with
  | Except.ok stream => (Except.ok stream, [Event.sendGet cmd])
  | Except.error _ =>
      (Except.error { message := "Could not retrieve GeoTIFF stream" }, [Event.sendGet cmd])

end S3Service

/-- HTTP response bodies the five routes of the controller in main.ts produce.
Binary bodies carry their Content-Type and Content-Disposition header values. -/
inductive Body where
  | verifyJson : Bool → Body
  | listingJson : List S3Object → Bool → Option String → Body
  | binary : String → String → List Nat → Body
  | streamBody : String → String → Readable → Body
  | geotiffJson : List Nat → Nat → Nat → Body
  | errorJson : String → String → Body
  | notFoundJson : String → String → Nat → Body
deriving DecidableEq

/-- An HTTP response: status code and body. -/
structure HttpResponse where
  status : Nat
  body : Body
deriving DecidableEq

/-- Embeds `key.replace(/\\/g, '/')`, inlined in each wildcard route of the
controller: every backslash character becomes a forward slash. -/
def replaceBackslashes (s : String) : String :=
  String.mk (s.data.map (fun c => if c = '\\' then '/' else c))

/-- Embeds `key.split('/').pop()`, used for the filename in the
Content-Disposition headers (last slash-separated segment). -/
def basename (s : String) : String :=
  (s.splitOn "/").getLastD ""

namespace S3Controller

/-- Embeds the `verify` route (main.ts:26-30): returns
`{ authenticated: <boolean> }` with the framework's default status 200. -/
def verifyAWS (w : World) : HttpResponse × List Event :=
  let r := S3Service.verifyAWSAuthentication w
  ({ status := 200, body := Body.verifyJson r.1 }, r.2)

/-- Embeds the `list` route (main.ts:36-50): query parameter `pfx` defaults to
`'collection02/'` when absent; serializes `contents`, `isTruncated`,
`nextContinuationToken` from the provider response. A service error is not
caught here and propagates to the framework (`Except.error`). -/
def listObjects (w : World) (pfx : Option String) (continuationToken : Option String) :
    Except JsError HttpResponse × List Event :=
  let p := pfx.getD "collection02/"
  match S3Service.listObjects w p continuationToken with
  | (Except.error e, evs) => (Except.error e, evs)
  | (Except.ok r, evs) =>
      (Except.ok
        { status := 200,
          body := Body.listingJson r.Contents r.IsTruncated r.NextContinuationToken },
        evs)

/-- Embeds the `object/*` route (main.ts:77-96): sanitizes the wildcard key,
fetches the buffered object; on success responds 200 with octet-stream headers;
on error responds 500 with `{ message: 'Error retrieving the object',
error: error.message }`. -/
def getObject (w : World) (key : String) : HttpResponse × List Event :=
  let sanitizedKey := replaceBackslashes key
  match S3Service.getObject w sanitizedKey with
  | (Except.ok data, evs) =>
      ({ status := 200,
         body := Body.binary "application/octet-stream"
           ("attachment; filename=\"" ++ basename sanitizedKey ++ "\"") data }, evs)
  | (Except.error e, evs) =>
      ({ status := 500,
         body := Body.errorJson "Error retrieving the object" e.message }, evs)

/-- Embeds the `get-geotiff-stream/*` route (main.ts:98-122): sanitizes the
wildcard key, obtains the stream; on success responds 200 with image/tiff
headers and pipes the stream; on error responds 404 with
`{ message: 'Cannot GET /s3/get-geotiff/' + key, error: 'Not Found',
statusCode: 404 }` (note: the message interpolates the raw key and the
non-stream route path). -/
def getGeoTIFFStream (w : World) (key : String) : HttpResponse × List Event :=
  let sanitizedKey := replaceBackslashes key
  match S3Service.getGeoTIFFStream w sanitizedKey with
  | (Except.ok stream, evs) =>
      ({ status := 200,
         body := Body.streamBody "image/tiff"
           ("inline; filename=\"" ++ basename sanitizedKey ++ "\"") stream }, evs)
  | (Except.error _, evs) =>
      ({ status := 404,
         body := Body.notFoundJson ("Cannot GET /s3/get-geotiff/" ++ key)
           "Not Found" 404 }, evs)

/-- Embeds the `get-geotiff/*` route (main.ts:124-152): sanitizes the wildcard
key, fetches and decodes; on success responds 200 with
`{ rasterData, width, height }`; on error responds 404 with the same body shape
as the stream route. -/
def getGeoTIFF (w : World) (key : String) : HttpResponse × List Event :=
  let sanitizedKey := replaceBackslashes key
  match S3Service.getGeoTIFF w sanitizedKey with
  | (Except.ok data, evs) =>
      ({ status := 200,
         body := Body.geotiffJson data.rasterData data.width data.height }, evs)
  | (Except.error _, evs) =>
      ({ status := 404,
         body := Body.notFoundJson ("Cannot GET /s3/get-geotiff/" ++ key)
           "Not Found" 404 }, evs)

end S3Controller

/-- A provider behavior in which every storage call fails with AccessDenied and
the decoder rejects every buffer. -/
def wFail : World :=
  { listBucketsResult := Except.error { message := "AccessDenied" },
    listResult := fun _ => Except.error { message := "AccessDenied" },
    getResult := fun _ => Except.error { message := "AccessDenied" },
    fromArrayBuffer := fun _ => Except.error { message := "not a TIFF" } }

/-- A provider behavior in which every call succeeds: listing returns an empty,
untruncated page with no token; objects are a one-chunk stream; decoding yields
a single 2x2 image. -/
def wOk : World :=
  { listBucketsResult := Except.ok (),
    listResult := fun _ =>
      Except.ok { Contents := [], IsTruncated := false, NextContinuationToken := none },
    getResult := fun _ => Except.ok { chunks := [[73, 73, 42, 0]], err := none },
    fromArrayBuffer := fun _ =>
      Except.ok [{ raster := [7, 8, 9, 10], width := 2, height := 2 }] }

/-- Helper: any GetObjectCommand sent by `S3Service.getObject` is exactly the
command built from the fixed bucket, the given key, and requester-pays. -/
theorem sendGet_getObject_trace (w : World) (k : String) (cmd : GetObjectCommand)
    (h : Event.sendGet cmd ∈ (S3Service.getObject w k).2) :
    cmd = { Bucket := bucketName, Key := k, RequestPayer := some "requester" } := by
  rcases hg : w.getResult { Bucket := bucketName, Key := k, RequestPayer := some "requester" }
      with e | s <;>
    simp [S3Service.getObject, hg] at h <;> exact h

/-- Helper: any GetObjectCommand sent by `S3Service.getGeoTIFFStream` is exactly
the command built from the fixed bucket, the given key, and requester-pays. -/
theorem sendGet_getGeoTIFFStream_trace (w : World) (k : String) (cmd : GetObjectCommand)
    (h : Event.sendGet cmd ∈ (S3Service.getGeoTIFFStream w k).2) :
    cmd = { Bucket := bucketName, Key := k, RequestPayer := some "requester" } := by
  rcases hg : w.getResult { Bucket := bucketName, Key := k, RequestPayer := some "requester" }
      with e | s <;>
    simp [S3Service.getGeoTIFFStream, hg] at h <;> exact h

/-- Helper: every GetObjectCommand sent by `S3Service.getGeoTIFF` was sent by
its inner `S3Service.getObject` call (the extra decode event is not a send). -/
theorem getGeoTIFF_trace_sendGet (w : World) (k : String) (cmd : GetObjectCommand)
    (h : Event.sendGet cmd ∈ (S3Service.getGeoTIFF w k).2) :
    Event.sendGet cmd ∈ (S3Service.getObject w k).2 := by
  unfold S3Service.getGeoTIFF at h
  rcases hg : S3Service.getObject w k with ⟨r, evs⟩
  rw [hg] at h
  cases r with
  | error e => simpa using h
  | ok buf =>
      rcases hd : w.fromArrayBuffer buf with e2 | images
      · simp [hd] at h
        simpa using h
      · rcases hh : images.head? with _ | image <;> simp [hd, hh] at h <;> simpa using h

/-- Helper: the `object/*` route issues exactly the external calls of the
service-level buffered fetch on the sanitized key. -/
theorem getObject_route_trace (w : World) (key : String) :
    (S3Controller.getObject w key).2 = (S3Service.getObject w (replaceBackslashes key)).2 := by
  simp only [S3Controller.getObject]
  rcases hg : S3Service.getObject w (replaceBackslashes key) with ⟨r, evs⟩
  cases r <;> rfl

/-- Helper: the `get-geotiff-stream/*` route issues exactly the external calls
of the service-level stream fetch on the sanitized key. -/
theorem getGeoTIFFStream_route_trace (w : World) (key : String) :
    (S3Controller.getGeoTIFFStream w key).2
      = (S3Service.getGeoTIFFStream w (replaceBackslashes key)).2 := by
  simp only [S3Controller.getGeoTIFFStream]
  rcases hg : S3Service.getGeoTIFFStream w (replaceBackslashes key) with ⟨r, evs⟩
  cases r <;> rfl

/-- Helper: the `get-geotiff/*` route issues exactly the external calls of the
service-level fetch-and-decode on the sanitized key. -/
theorem getGeoTIFF_route_trace (w : World) (key : String) :
    (S3Controller.getGeoTIFF w key).2 = (S3Service.getGeoTIFF w (replaceBackslashes key)).2 := by
  simp only [S3Controller.getGeoTIFF]
  rcases hg : S3Service.getGeoTIFF w (replaceBackslashes key) with ⟨r, evs⟩
  cases r <;> rfl

/-- Helper: the `list` route issues exactly the external calls of the
service-level listing with the defaulted query values. -/
theorem listObjects_route_trace (w : World) (pfx : Option String)
    (continuationToken : Option String) :
    (S3Controller.listObjects w pfx continuationToken).2
      = (S3Service.listObjects w (pfx.getD "collection02/") continuationToken).2 := by
  simp only [S3Controller.listObjects]
  rcases hg : S3Service.listObjects w (pfx.getD "collection02/") continuationToken with ⟨r, evs⟩
  cases r <;> rfl

/-- C1 (counterexample): when the provider fails the initial GetObject request
with AccessDenied, `getGeoTIFFStream` does not fail with the provider's error:
the error reaching the HTTP layer is a different one, so the claim that the
service layer never replaces the provider error is false. -/
theorem c1_stream_error_not_provider_error :
    wFail.getResult
        { Bucket := bucketName, Key := "collection02/f.tif", RequestPayer := some "requester" }
      = Except.error { message := "AccessDenied" } ∧
    (S3Service.getGeoTIFFStream wFail "collection02/f.tif").1
      ≠ Except.error { message := "AccessDenied" } := by
  refine ⟨rfl, fun h => ?_⟩
  rw [show (S3Service.getGeoTIFFStream wFail "collection02/f.tif").1
      = Except.error { message := "Could not retrieve GeoTIFF stream" } from rfl] at h
  injection h with h2
  injection h2 with h3
  exact absurd h3 (by decide)

/-- C1 (amended): for every key whose initial storage request fails, the
streaming fetch still fails — the error is not swallowed into a success — but
the service layer replaces the provider's error with the generic
Error('Could not retrieve GeoTIFF stream') before it reaches the HTTP layer. -/
theorem c1_stream_error_replaced (w : World) (key : String) (e : JsError)
    (h : w.getResult { Bucket := bucketName, Key := key, RequestPayer := some "requester" }
        = Except.error e) :
    (S3Service.getGeoTIFFStream w key).1
      = Except.error { message := "Could not retrieve GeoTIFF stream" } := by
  simp [S3Service.getGeoTIFFStream, h]

/-- C1 (witness): the amended statement evaluated at the failing provider. -/
theorem c1_stream_error_replaced_witness :
    (S3Service.getGeoTIFFStream wFail "collection02/f.tif").1
      = Except.error { message := "Could not retrieve GeoTIFF stream" } :=
  c1_stream_error_replaced wFail "collection02/f.tif" { message := "AccessDenied" } rfl

/-- C2: for both raster routes, whenever the service call fails — whatever the
underlying cause — the HTTP response has status 404 and JSON body with message
"Cannot GET /s3/get-geotiff/<key>", error "Not Found" and statusCode 404. -/
theorem c2_raster_routes_fail_as_404 (w : World) (key : String) :
    ((∃ e, (S3Service.getGeoTIFFStream w (replaceBackslashes key)).1 = Except.error e) →
      (S3Controller.getGeoTIFFStream w key).1
        = { status := 404,
            body := Body.notFoundJson ("Cannot GET /s3/get-geotiff/" ++ key) "Not Found" 404 }) ∧
    ((∃ e, (S3Service.getGeoTIFF w (replaceBackslashes key)).1 = Except.error e) →
      (S3Controller.getGeoTIFF w key).1
        = { status := 404,
            body := Body.notFoundJson ("Cannot GET /s3/get-geotiff/" ++ key) "Not Found" 404 }) := by
  constructor
  · rintro ⟨e, he⟩
    rcases hs : S3Service.getGeoTIFFStream w (replaceBackslashes key) with ⟨r, evs⟩
    rw [hs] at he
    cases r with
    | error e2 => simp [S3Controller.getGeoTIFFStream, hs]
    | ok s => simp at he
  · rintro ⟨e, he⟩
    rcases hs : S3Service.getGeoTIFF w (replaceBackslashes key) with ⟨r, evs⟩
    rw [hs] at he
    cases r with
    | error e2 => simp [S3Controller.getGeoTIFF, hs]
    | ok d => simp at he

/-- C2 (witness): both raster routes respond 404 with the stated body for a
backslashed key against the failing provider. -/
theorem c2_raster_routes_fail_as_404_witness :
    (S3Controller.getGeoTIFFStream wFail "collection02\\f.tif").1
      = { status := 404,
          body := Body.notFoundJson ("Cannot GET /s3/get-geotiff/" ++ "collection02\\f.tif")
            "Not Found" 404 } ∧
    (S3Controller.getGeoTIFF wFail "collection02\\f.tif").1
      = { status := 404,
          body := Body.notFoundJson ("Cannot GET /s3/get-geotiff/" ++ "collection02\\f.tif")
            "Not Found" 404 } :=
  ⟨(c2_raster_routes_fail_as_404 wFail "collection02\\f.tif").1
      ⟨{ message := "Could not retrieve GeoTIFF stream" }, rfl⟩,
   (c2_raster_routes_fail_as_404 wFail "collection02\\f.tif").2
      ⟨{ message := "Could not retrieve GeoTIFF data" }, rfl⟩⟩

/-- C3: the authentication check never throws — for every outcome of the
privileged ListBuckets call it returns a boolean, true exactly on success —
and the verify route always responds 200 with that boolean as body. -/
theorem c3_verify_never_throws (w : World) :
    (S3Controller.verifyAWS w).1.status = 200 ∧
    (S3Controller.verifyAWS w).1.body
      = Body.verifyJson (S3Service.verifyAWSAuthentication w).1 ∧
    ((S3Service.verifyAWSAuthentication w).1 = true ↔ w.listBucketsResult = Except.ok ()) := by
  refine ⟨rfl, rfl, ?_⟩
  rcases hb : w.listBucketsResult with e | u
  · simp [S3Service.verifyAWSAuthentication, hb]
  · cases u
    simp [S3Service.verifyAWSAuthentication, hb]

/-- C4: for all three wildcard routes, every key passed to a storage GetObject
call is the request key with every backslash replaced by a forward slash. -/
theorem c4_routes_normalize_backslashes (w : World) (key : String) :
    (∀ cmd, Event.sendGet cmd ∈ (S3Controller.getObject w key).2 →
        cmd.Key = String.mk (key.data.map (fun c => if c = '\\' then '/' else c))) ∧
    (∀ cmd, Event.sendGet cmd ∈ (S3Controller.getGeoTIFFStream w key).2 →
        cmd.Key = String.mk (key.data.map (fun c => if c = '\\' then '/' else c))) ∧
    (∀ cmd, Event.sendGet cmd ∈ (S3Controller.getGeoTIFF w key).2 →
        cmd.Key = String.mk (key.data.map (fun c => if c = '\\' then '/' else c))) := by
  refine ⟨fun cmd h => ?_, fun cmd h => ?_, fun cmd h => ?_⟩
  · rw [getObject_route_trace w key] at h
    have h2 := sendGet_getObject_trace w (replaceBackslashes key) cmd h
    subst h2
    rfl
  · rw [getGeoTIFFStream_route_trace w key] at h
    have h2 := sendGet_getGeoTIFFStream_trace w (replaceBackslashes key) cmd h
    subst h2
    rfl
  · rw [getGeoTIFF_route_trace w key] at h
    have h2 := sendGet_getObject_trace w (replaceBackslashes key) cmd
      (getGeoTIFF_trace_sendGet w (replaceBackslashes key) cmd h)
    subst h2
    rfl

/-- C4 (witness): the command sent for the request key with a backslash carries
the normalized key. -/
theorem c4_routes_normalize_backslashes_witness :
    ({ Bucket := "usgs-landsat", Key := "collection02/a.tif",
       RequestPayer := some "requester" } : GetObjectCommand).Key
      = String.mk (("collection02\\a.tif").data.map (fun c => if c = '\\' then '/' else c)) :=
  (c4_routes_normalize_backslashes wOk "collection02\\a.tif").1
    { Bucket := "usgs-landsat", Key := "collection02/a.tif", RequestPayer := some "requester" }
    (by decide)

/-- C5: the listing route passes the provider's truncation flag and token
through unchanged, so whenever the provider upholds its pagination contract
(token present iff truncated), every serialized listing result satisfies:
isTruncated false implies no nextContinuationToken, true implies present. -/
theorem c5_listing_token_iff_truncated (w : World) (pfx continuationToken : Option String)
    (contents : List S3Object) (it : Bool) (nct : Option String) (evs : List Event)
    (hw : ∀ cmd r, w.listResult cmd = Except.ok r →
        (r.IsTruncated = true ↔ r.NextContinuationToken.isSome = true))
    (h : S3Controller.listObjects w pfx continuationToken
        = (Except.ok { status := 200, body := Body.listingJson contents it nct }, evs)) :
    (it = true ↔ nct.isSome = true) := by
  rcases hr : w.listResult
      { Bucket := bucketName, Pfx := some (pfx.getD "collection02/"),
        ContinuationToken := continuationToken, RequestPayer := some "requester" } with e | r
  · simp [S3Controller.listObjects, S3Service.listObjects, hr] at h
  · simp [S3Controller.listObjects, S3Service.listObjects, hr] at h
    obtain ⟨⟨hc, hit, hnct⟩, hevs⟩ := h
    rw [← hit, ← hnct]
    exact hw _ r hr

/-- C5 (witness): the property at a provider returning an untruncated page. -/
theorem c5_listing_token_iff_truncated_witness :
    ((false = true) ↔ ((none : Option String).isSome = true)) :=
  c5_listing_token_iff_truncated wOk none none [] false none
    [Event.sendList
      { Bucket := bucketName, Pfx := some "collection02/",
        ContinuationToken := none, RequestPayer := some "requester" }]
    (fun cmd r hr => by
      have h3 : Except.ok { Contents := [], IsTruncated := false, NextContinuationToken := none }
          = Except.ok r := hr
      injection h3 with h4
      rw [← h4]
      simp)
    rfl

/-- C6: fetch-and-decode first performs the full buffered fetch and then (and
only then) decodes exactly the fetched buffer; a successful result is the first
image of the decoded container — its raster band data, width and height; and
the streaming operation never invokes the decoder. -/
theorem c6_fetch_then_decode (w : World) (key : String) :
    ((S3Service.getGeoTIFF w key).2
      = (S3Service.getObject w key).2
        ++ (match (S3Service.getObject w key).1 with
            | Except.ok buffer => [Event.decodeFromArrayBuffer buffer]
            | Except.error _ => ([] : List Event))) ∧
    (∀ d, (S3Service.getGeoTIFF w key).1 = Except.ok d →
      ∃ buffer images image,
        (S3Service.getObject w key).1 = Except.ok buffer ∧
        w.fromArrayBuffer buffer = Except.ok images ∧
        images.head? = some image ∧
        d.rasterData = image.raster ∧ d.width = image.width ∧ d.height = image.height) ∧
    (∀ b, Event.decodeFromArrayBuffer b ∉ (S3Service.getGeoTIFFStream w key).2) := by
  refine ⟨?_, ?_, ?_⟩
  · rcases hg : S3Service.getObject w key with ⟨r, evs⟩
    cases r with
    | error e => simp [S3Service.getGeoTIFF, hg]
    | ok buf =>
        rcases hd : w.fromArrayBuffer buf with e2 | images
        · simp [S3Service.getGeoTIFF, hg, hd]
        · rcases hh : images.head? with _ | image <;>
            simp [S3Service.getGeoTIFF, hg, hd, hh]
  · intro d hdd
    unfold S3Service.getGeoTIFF at hdd
    rcases hg : S3Service.getObject w key with ⟨r, evs⟩
    rw [hg] at hdd
    cases r with
    | error e => simp at hdd
    | ok buf =>
        rcases hd : w.fromArrayBuffer buf with e2 | images
        · simp [hd] at hdd
        · rcases hh : images.head? with _ | image
          · simp [hd, hh] at hdd
          · simp [hd, hh] at hdd
            exact ⟨buf, images, image, rfl, hd, hh, by rw [← hdd], by rw [← hdd], by rw [← hdd]⟩
  · intro b
    rcases hr : w.getResult { Bucket := bucketName, Key := key, RequestPayer := some "requester" }
        with e | s <;> simp [S3Service.getGeoTIFFStream, hr]

/-- C6 (witness): at the succeeding provider, the decoded result is the first
image's raster, width and height. -/
theorem c6_fetch_then_decode_witness :
    ∃ buffer images image,
      (S3Service.getObject wOk "collection02/a.tif").1 = Except.ok buffer ∧
      wOk.fromArrayBuffer buffer = Except.ok images ∧
      images.head? = some image ∧
      ({ rasterData := [7, 8, 9, 10], width := 2, height := 2 } : GeoTIFFData).rasterData
          = image.raster ∧
      ({ rasterData := [7, 8, 9, 10], width := 2, height := 2 } : GeoTIFFData).width
          = image.width ∧
      ({ rasterData := [7, 8, 9, 10], width := 2, height := 2 } : GeoTIFFData).height
          = image.height :=
  (c6_fetch_then_decode wOk "collection02/a.tif").2.1
    { rasterData := [7, 8, 9, 10], width := 2, height := 2 } rfl

/-- C7: when retrieval fails on the object route — either the GetObject request
itself or the body stream fails — the response is 500 with message exactly
"Error retrieving the object" and the provider's error message echoed
unchanged in the error field. -/
theorem c7_object_route_500_echoes (w : World) (key : String) (e : JsError)
    (h : w.getResult
          { Bucket := bucketName, Key := replaceBackslashes key, RequestPayer := some "requester" }
        = Except.error e
      ∨ ∃ s, w.getResult
          { Bucket := bucketName, Key := replaceBackslashes key, RequestPayer := some "requester" }
          = Except.ok s ∧ s.err = some e) :
    (S3Controller.getObject w key).1
      = { status := 500, body := Body.errorJson "Error retrieving the object" e.message } := by
  rcases h with h | ⟨s, hs, herr⟩
  · simp [S3Controller.getObject, S3Service.getObject, h]
  · simp [S3Controller.getObject, S3Service.getObject, S3Service.streamToBuffer, hs, herr]

/-- C7 (witness): the 500 body echoes AccessDenied at the failing provider. -/
theorem c7_object_route_500_echoes_witness :
    (S3Controller.getObject wFail "collection02/a.tif").1
      = { status := 500, body := Body.errorJson "Error retrieving the object" "AccessDenied" } :=
  c7_object_route_500_echoes wFail "collection02/a.tif" { message := "AccessDenied" }
    (Or.inl rfl)

/-- C8: every storage request issued by the listing operation and by the
buffered and streaming fetch operations carries the requester-pays indicator. -/
theorem c8_requests_carry_requester_pays (w : World) (pfx : String)
    (continuationToken : Option String) (key : String) :
    (∀ cmd, Event.sendList cmd ∈ (S3Service.listObjects w pfx continuationToken).2 →
        cmd.RequestPayer = some "requester") ∧
    (∀ cmd, Event.sendGet cmd ∈ (S3Service.getObject w key).2 →
        cmd.RequestPayer = some "requester") ∧
    (∀ cmd, Event.sendGet cmd ∈ (S3Service.getGeoTIFFStream w key).2 →
        cmd.RequestPayer = some "requester") := by
  refine ⟨fun cmd h => ?_, fun cmd h => ?_, fun cmd h => ?_⟩
  · simp [S3Service.listObjects] at h
    subst h
    rfl
  · have h2 := sendGet_getObject_trace w key cmd h
    subst h2
    rfl
  · have h2 := sendGet_getGeoTIFFStream_trace w key cmd h
    subst h2
    rfl

/-- C8 (witness): the listing command sent for the default query carries
requester-pays. -/
theorem c8_requests_carry_requester_pays_witness :
    ({ Bucket := "usgs-landsat", Pfx := some "collection02/", ContinuationToken := none,
       RequestPayer := some "requester" } : ListObjectsV2Command).RequestPayer
      = some "requester" :=
  (c8_requests_carry_requester_pays wOk "collection02/" none "k").1
    { Bucket := "usgs-landsat", Pfx := some "collection02/", ContinuationToken := none,
      RequestPayer := some "requester" }
    (by decide)

/-- C9: when the caller omits the listing query value, the storage listing call
is made with "collection02/"; and for every caller value, the storage call
always carries a present (defaulted if absent) value. -/
theorem c9_listing_default_collection02 (w : World) (continuationToken : Option String) :
    (∀ cmd, Event.sendList cmd ∈ (S3Controller.listObjects w none continuationToken).2 →
        cmd.Pfx = some "collection02/") ∧
    (∀ p cmd, Event.sendList cmd ∈ (S3Controller.listObjects w p continuationToken).2 →
        cmd.Pfx = some (p.getD "collection02/")) := by
  constructor
  · intro cmd h
    rw [listObjects_route_trace w none continuationToken] at h
    simp [S3Service.listObjects] at h
    subst h
    rfl
  · intro p cmd h
    rw [listObjects_route_trace w p continuationToken] at h
    simp [S3Service.listObjects] at h
    subst h
    rfl

/-- C9 (witness): the command sent for an omitted query value carries
"collection02/". -/
theorem c9_listing_default_collection02_witness :
    ({ Bucket := "usgs-landsat", Pfx := some "collection02/", ContinuationToken := none,
       RequestPayer := some "requester" } : ListObjectsV2Command).Pfx
      = some "collection02/" :=
  (c9_listing_default_collection02 wOk none).1
    { Bucket := "usgs-landsat", Pfx := some "collection02/", ContinuationToken := none,
      RequestPayer := some "requester" }
    (by decide)

/-- C10: the key sanitization is idempotent, and is the identity on keys
containing no backslash, so already-normalized keys pass through unchanged. -/
theorem c10_sanitize_idempotent_and_identity (k : String) :
    replaceBackslashes (replaceBackslashes k) = replaceBackslashes k ∧
    ( '\\' ∉ k.data → replaceBackslashes k = k) := by
  have hmap : ∀ l : List Char,
      (l.map (fun c => if c = '\\' then '/' else c)).map (fun c => if c = '\\' then '/' else c)
        = l.map (fun c => if c = '\\' then '/' else c) := by
    intro l
    induction l with
    | nil => rfl
    | cons a t ih => by_cases ha : a = '\\' <;> simp [ha, ih]
  have hid : ∀ l : List Char, '\\' ∉ l →
      l.map (fun c => if c = '\\' then '/' else c) = l := by
    intro l
    induction l with
    | nil => intro _; rfl
    | cons a t ih =>
        intro hl
        simp only [List.mem_cons, not_or] at hl
        have ha : a ≠ '\\' := fun e => hl.1 e.symm
        simp [ha, ih hl.2]
  constructor
  · simp only [replaceBackslashes]
    exact congrArg String.mk (hmap k.data)
  · intro hk
    simp only [replaceBackslashes]
    exact congrArg String.mk (hid k.data hk)

/-- C10 (witness): a backslash-free key is unchanged by sanitization. -/
theorem c10_sanitize_idempotent_and_identity_witness :
    ( '\\' ∉ ("collection02/a.tif").data) ∧
    replaceBackslashes "collection02/a.tif" = "collection02/a.tif" :=
  ⟨by decide, (c10_sanitize_idempotent_and_identity "collection02/a.tif").2 (by decide)⟩

end Landsat
